import Mathlib

/-!
Verification of the `trytond-amazon-mws` module (`src/product.py`): a shallow
embedding of its data model and of the catalog / pricing / inventory export
operations, the Account-Link creation, product resolution by seller SKU, and
the duplicate-code validation, together with theorems settling the spec's
claims about them.

Conventions of the embedding:
* XML documents built with `lxml.builder.E` become the inductive `Xml` tree.
* The ambient ORM database becomes explicit state passing: a list of
  `Product` rows, a list of `ProductMwsAccountRecord` rows.
* `raise_user_error` and SQL constraint violations become `Except UserError`.
* Network submission (`feeds_api.submit_feed`) is recorded as a
  `FeedSubmission` value in the returned trace; `response.parsed` is
  abstracted as that submission record.
* Python `Decimal` values are only ever built from literals and turned into
  strings by this code, so they are embedded as their literal digit string.
-/

namespace AmazonMws

/-- XML element tree, embedding documents built with `lxml.builder.E`:
`Xml.elem tag attrs children` is `E.tag(*children, **attrs)` (plus
`element.set` calls), and `Xml.text s` is a string argument. -/
inductive Xml where
  | elem (tag : String) (attrs : List (String × String)) (children : List Xml)
  | text (s : String)

/-- `E.tag(*children)` with no attributes. -/
def Xml.E (tag : String) (children : List Xml) : Xml :=
  Xml.elem tag [] children

/-- Python `decimal.Decimal`: the source only constructs these from string
literals (`Decimal('0.01')`) or stores them, and converts them with `str`,
so the embedding keeps the digit string. -/
structure PyDecimal where
  digits : String
deriving DecidableEq, Repr

/-- A row of `amazon.product.identifier` (`ProductIdentifier`), seen from its
owning product: the identifier value and its type
(EAN/UPC/ISBN/ASIN/GTIN). -/
structure AmazonIdentifier where
  product_id : String
  product_id_type : String
deriving DecidableEq, Repr

/-- A `product.product` row together with the template fields the module
reads (`product.template.name`, `.list_price`, `.quantity`).

* `code = ""` embeds a falsy code (`None` or `''`): `if not product.code`.
* `mws_accounts` is the list of account ids of the product's
  `product.mws.account` rows (`[acc.account for acc in product.mws_accounts]`).
* `storage_quantity` is `product.template.quantity` evaluated under a context
  whose locations are the storage-type locations
  (`Location.search([('type', '=', 'storage')])`); the quantity computation
  itself lives in the host framework's stock module, outside this
  repository. Python truncates it with `int()`; the embedding already keeps
  an integer, which is faithful for the zero/nonzero distinctions and the
  digit strings the claims are about. -/
structure Product where
  id : Nat
  code : String
  name : String
  description : String
  list_price : PyDecimal
  amazon_identifiers : List AmazonIdentifier
  mws_accounts : List Nat
  storage_quantity : Int
deriving DecidableEq, Repr

/-- Modelled from the spec: the `amazon.mws.account` model (its source file
is not part of `src/`); it "holds API credentials (access key, secret key,
merchant id), a marketplace id, default unit-of-measure, default
expense/revenue accounts, and a company/currency reference", read-only
configuration. `currency_code` is `mws_account.company.currency.code`;
the `default_*` fields are the ids the source reads (`.id`). -/
structure MwsAccount where
  id : Nat
  access_key : String
  secret_key : String
  merchant_id : String
  marketplace_id : String
  currency_code : String
  default_uom : Nat
  default_account_expense : Nat
  default_account_revenue : Nat
deriving DecidableEq, Repr

/-- A row of `product.mws.account` (`ProductMwsAccount`): the Account-Link
between a product and an MWS account. -/
structure ProductMwsAccountRecord where
  product : Nat
  account : Nat
deriving DecidableEq, Repr

/-- The errors the module can raise: the three named
`raise_user_error` messages of `Product` (with their payloads), the SQL
uniqueness violation of a `_sql_constraints` entry, and a Python
`IndexError` (possible in `create_using_amazon_data` on an empty
attribute-set list). -/
inductive UserError where
  | missing_product_code (product : String)
  | missing_amazon_product_identifiers (product : String)
  | invalid_amazon_product (code : String)
  | uniqueness_violation (constraint : String)
  | py_index_error
deriving DecidableEq, Repr

/-- One call to `feeds_api.submit_feed(body, feed_type, marketplaceids)`. -/
structure FeedSubmission where
  feed : Xml
  feed_type : String
  marketplaceids : List String

/-- CPython semantics of `for vals in vlist: if cond(vals): vlist.remove(vals)`
(the loop of `ProductMwsAccount.create`): the interpreter keeps a cursor `i`
that advances after every iteration even when the current element was
removed — so the element sliding into the freed slot is never examined —
and `list.remove` deletes the first occurrence equal to the value. -/
def pyRemoveLoop {α : Type} [DecidableEq α] (cond : α → Bool) (l : List α) (i : Nat) :
    List α :=
  if h : i < l.length then
    let v := l.get ⟨i, h⟩
    if cond v then pyRemoveLoop cond (l.erase v) (i + 1)
    else pyRemoveLoop cond l (i + 1)
  else l
termination_by l.length - i
decreasing_by
  · have hm : l.get ⟨i, h⟩ ∈ l := l.get_mem i h
    have := List.length_erase_of_mem hm
    simp only [this]
    omega
  · omega

/-- Whether the Account-Link table `db` already holds a row with the same
product and account as `v`: the `cls.search` filter of
`ProductMwsAccount.create`, and also the `account_product_unique`
(`UNIQUE(account, product)`) SQL constraint check. -/
def linkExists (db : List ProductMwsAccountRecord) (v : ProductMwsAccountRecord) : Bool :=
  db.any fun r => r.product == v.product && r.account == v.account

/-- The storage layer's insert of `product.mws.account` rows
(`super(ProductMwsAccount, cls).create(vlist)`): rows are inserted in order
and the `account_product_unique` SQL constraint rejects a row whose
(account, product) pair is already present. -/
def sqlInsertLinks (db : List ProductMwsAccountRecord) :
    List ProductMwsAccountRecord → Except UserError (List ProductMwsAccountRecord)
  | [] => .ok db
  | v :: rest =>
    if linkExists db v then .error (.uniqueness_violation "account_product_unique")
    else sqlInsertLinks (db ++ [v]) rest

namespace ProductMwsAccount

/-- `ProductMwsAccount.create`: walk `vlist` removing (in place, while
iterating) every vals for which a record with the same product and account
combo already exists, then delegate the remaining vals to the storage
insert. -/
def create (db : List ProductMwsAccountRecord) (vlist : List ProductMwsAccountRecord) :
    Except UserError (List ProductMwsAccountRecord) :=
  sqlInsertLinks db (pyRemoveLoop (linkExists db) vlist 0)

end ProductMwsAccount

namespace Product

/-- `Product.check_amazon_code`: raise `invalid_amazon_product` (carrying
the code) when the product has amazon identifiers and some other row of the
product table `db` has the same code. -/
def check_amazon_code (db : List Product) (self : Product) : Except UserError Unit :=
  if !self.amazon_identifiers.isEmpty &&
      !(db.filter fun p => p.code == self.code && p.id != self.id).isEmpty then
    .error (.invalid_amazon_product self.code)
  else
    .ok ()

/-- `Product.validate`: run `check_amazon_code` over the products in order,
the first error aborting the run. -/
def validate (db : List Product) : List Product → Except UserError Unit
  | [] => .ok ()
  | product :: rest => do
    check_amazon_code db product
    validate db rest

/-- The export loop of `Product.export_to_amazon`: for each product check a
falsy code first, then an empty identifier list — raising the named error
with the product's template name — and otherwise build its `Message`
element from the SKU, the first amazon identifier, title, description and
the fixed `Misc_Other` category. The first failing product aborts the whole
loop with its error, discarding the messages already built, exactly like
the raised exception. -/
def export_messages : List Product → Except UserError (List Xml)
  | [] => .ok []
  | product :: rest =>
    if product.code == "" then
      .error (.missing_product_code product.name)
    else
      match product.amazon_identifiers with
      | [] => .error (.missing_amazon_product_identifiers product.name)
      | idf :: _ => do
        let ms ← export_messages rest
        return Xml.E "Message" [
          Xml.E "MessageID" [.text (toString product.id)],
          Xml.E "OperationType" [.text "Update"],
          Xml.E "Product" [
            Xml.E "SKU" [.text product.code],
            Xml.E "StandardProductID" [
              Xml.E "Type" [.text idf.product_id_type],
              Xml.E "Value" [.text idf.product_id]],
            Xml.E "DescriptionData" [
              Xml.E "Title" [.text product.name],
              Xml.E "Description" [.text product.description]],
            Xml.E "ProductData" [
              Xml.E "Miscellaneous" [
                Xml.E "ProductType" [.text "Misc_Other"]]]]] :: ms

/-- `NS` of the three export methods. -/
def NS : String := "http://www.w3.org/2001/XMLSchema-instance"

/-- `location_attribute`: the `noNamespaceSchemaLocation` attribute name
qualified by `NS` in Clark notation (the namespace URI between a left and a
right curly brace). -/
def location_attribute : String := "\x7b" ++ NS ++ "\x7d" ++ "noNamespaceSchemaLocation"

/-- `Product.export_to_amazon` on the account taken from the transaction
context and the Account-Link table `linkDb`: build the product messages
(aborting on the first validation error, with no submission and no write),
wrap them in the `AmazonEnvelope`, submit the feed, then create an
Account-Link row for every product of the list. The first component of the
result is the trace of `submit_feed` calls made during the run; the second
is the resulting Account-Link table, or the error raised. -/
def export_to_amazon (mws_account : MwsAccount) (linkDb : List ProductMwsAccountRecord)
    (products : List Product) :
    List FeedSubmission × Except UserError (List ProductMwsAccountRecord) :=
  match export_messages products with
  | .error e => ([], .error e)
  | .ok products_xml =>
    let envelope_xml := Xml.elem "AmazonEnvelope"
      [(location_attribute, "amznenvelope.xsd")]
      ([Xml.E "Header" [
          Xml.E "DocumentVersion" [.text "1.01"],
          Xml.E "MerchantIdentifier" [.text mws_account.merchant_id]],
        Xml.E "MessageType" [.text "Product"],
        Xml.E "PurgeAndReplace" [.text "false"]] ++ products_xml)
    let response : FeedSubmission :=
      { feed := envelope_xml,
        feed_type := "_POST_PRODUCT_DATA_",
        marketplaceids := [mws_account.marketplace_id] }
    match ProductMwsAccount.create linkDb
        (products.map fun product =>
          { product := product.id, account := mws_account.id }) with
    | .error e => ([response], .error e)
    | .ok db2 => ([response], .ok db2)

/-- `Product.export_pricing_to_amazon`: build a `Price` message for exactly
those products whose `mws_accounts` rows contain the context account, wrap
them in the `AmazonEnvelope` and submit the feed. The Account-Link table is
not touched. -/
def export_pricing_to_amazon (mws_account : MwsAccount)
    (linkDb : List ProductMwsAccountRecord) (products : List Product) :
    List FeedSubmission × Except UserError (List ProductMwsAccountRecord) :=
  let pricing_xml := products.filterMap fun product =>
    if product.mws_accounts.contains mws_account.id then
      some (Xml.E "Message" [
        Xml.E "MessageID" [.text (toString product.id)],
        Xml.E "OperationType" [.text "Update"],
        Xml.E "Price" [
          Xml.E "SKU" [.text product.code],
          Xml.elem "StandardPrice" [("currency", mws_account.currency_code)]
            [.text product.list_price.digits]]])
    else none
  let envelope_xml := Xml.elem "AmazonEnvelope"
    [(location_attribute, "amznenvelope.xsd")]
    ([Xml.E "Header" [
        Xml.E "DocumentVersion" [.text "1.01"],
        Xml.E "MerchantIdentifier" [.text mws_account.merchant_id]],
      Xml.E "MessageType" [.text "Price"],
      Xml.E "PurgeAndReplace" [.text "false"]] ++ pricing_xml)
  let response : FeedSubmission :=
    { feed := envelope_xml,
      feed_type := "_POST_PRODUCT_PRICING_DATA_",
      marketplaceids := [mws_account.marketplace_id] }
  ([response], .ok linkDb)

/-- `Product.export_inventory_to_amazon`: for each product read
`product.template.quantity` under the storage-locations context, skip the
product when that quantity is falsy (zero) or when its `mws_accounts` rows
do not contain the context account, and otherwise build an `Inventory`
message carrying the SKU, the integer quantity and the fixed fulfillment
latency `'7'`; wrap the messages in the `AmazonEnvelope` and submit the
feed. The Account-Link table is not touched. -/
def export_inventory_to_amazon (mws_account : MwsAccount)
    (linkDb : List ProductMwsAccountRecord) (products : List Product) :
    List FeedSubmission × Except UserError (List ProductMwsAccountRecord) :=
  let inventory_xml := products.filterMap fun product =>
    let quantity := product.storage_quantity
    if quantity == 0 then none
    else if product.mws_accounts.contains mws_account.id then
      some (Xml.E "Message" [
        Xml.E "MessageID" [.text (toString product.id)],
        Xml.E "OperationType" [.text "Update"],
        Xml.E "Inventory" [
          Xml.E "SKU" [.text product.code],
          Xml.E "Quantity" [.text (toString quantity)],
          Xml.E "FulfillmentLatency" [.text "7"]]])
    else none
  let envelope_xml := Xml.elem "AmazonEnvelope"
    [(location_attribute, "amznenvelope.xsd")]
    ([Xml.E "Header" [
        Xml.E "DocumentVersion" [.text "1.01"],
        Xml.E "MerchantIdentifier" [.text mws_account.merchant_id]],
      Xml.E "MessageType" [.text "Inventory"],
      Xml.E "PurgeAndReplace" [.text "false"]] ++ inventory_xml)
  let response : FeedSubmission :=
    { feed := envelope_xml,
      feed_type := "_POST_INVENTORY_AVAILABILITY_DATA_",
      marketplaceids := [mws_account.marketplace_id] }
  ([response], .ok linkDb)

end Product

/-- The `ItemAttributes` structure of a parsed marketplace product lookup:
the field this module reads is the title (`['Title']['value']`). -/
structure ItemAttributes where
  title : String
deriving DecidableEq, Repr

/-- The `AttributeSets` payload of a parsed lookup, which the source
observes to be either a single structure or a list of structures
(`isinstance(product_attribute_set, dict)`). -/
inductive AttributeSets where
  | single (attrs : ItemAttributes)
  | listed (attrsList : List ItemAttributes)
deriving DecidableEq, Repr

/-- The parsed result of `api.get_matching_product_for_id(...)`, reduced to
the paths `create_using_amazon_data` reads: `['Id']['value']`,
`['Products']['Products']['AttributeSets']`, and the marketplace ASIN at
`['Products']['Product']['Identifiers']['MarketplaceASIN']['ASIN']['value']`. -/
structure AmazonProductData where
  id_value : String
  attribute_sets : AttributeSets
  asin : String
deriving DecidableEq, Repr

/-- The values dictionary returned by
`Product.extract_product_values_from_amazon_data`. -/
structure ProductValues where
  name : String
  list_price : PyDecimal
  cost_price : PyDecimal
  default_uom : Nat
  salable : Bool
  sale_uom : Nat
  account_expense : Nat
  account_revenue : Nat
deriving DecidableEq, Repr

/-- The `product.template` row (with its single nested product) created by
`Product.create_using_amazon_data` through `Template.create`. -/
structure CreatedTemplate where
  values : ProductValues
  code : String
  description : String
  amazon_identifiers : List AmazonIdentifier
  mws_accounts : List Nat
deriving DecidableEq, Repr

namespace Product

/-- `Product.extract_product_values_from_amazon_data` on the account taken
from the transaction context: the title from the attributes, placeholder
prices `Decimal('0.01')`, and unit-of-measure / expense / revenue account
ids from the account configuration. -/
def extract_product_values_from_amazon_data (mws_account : MwsAccount)
    (product_attributes : ItemAttributes) : ProductValues :=
  { name := product_attributes.title,
    list_price := { digits := "0.01" },
    cost_price := { digits := "0.01" },
    default_uom := mws_account.default_uom,
    salable := true,
    sale_uom := mws_account.default_uom,
    account_expense := mws_account.default_account_expense,
    account_revenue := mws_account.default_account_revenue }

/-- `Product.create_using_amazon_data`: pick the `ItemAttributes` out of the
attribute-set payload (first element when it is a list; indexing an empty
list is the Python `IndexError`), extract the product values, and create
the template with the product's code, description, a single `ASIN`
identifier and an Account-Link to the context account. -/
def create_using_amazon_data (mws_account : MwsAccount)
    (product_data : AmazonProductData) : Except UserError CreatedTemplate :=
  match product_data.attribute_sets with
  | .listed [] => .error .py_index_error
  | .single product_attributes
  | .listed (product_attributes :: _) =>
    let product_values := extract_product_values_from_amazon_data mws_account
      product_attributes
    .ok { values := product_values,
          code := product_data.id_value,
          description := product_attributes.title,
          amazon_identifiers := [{ product_id := product_data.asin,
                                   product_id_type := "ASIN" }],
          mws_accounts := [mws_account.id] }

/-- Result of `Product.find_or_create_using_amazon_sku`: either an existing
product row was returned, or a new template (with its product) was
created. -/
inductive FindOrCreateResult where
  | found (product : Product)
  | created (template : CreatedTemplate)
deriving DecidableEq, Repr

/-- `Product.find_or_create_using_amazon_sku`: search the product table for
the SKU as code and return the first match; only when there is none, call
the marketplace lookup API (`get_matching_product_for_id`, embedded as a
function argument, applied to the account's marketplace id, the literal
`'SellerSKU'` and the singleton SKU list) and delegate to
`create_using_amazon_data`. -/
def find_or_create_using_amazon_sku (mws_account : MwsAccount)
    (get_matching_product_for_id : String → String → List String → AmazonProductData)
    (db : List Product) (sku : String) : Except UserError FindOrCreateResult :=
  match db.filter fun p => p.code == sku with
  | p :: _ => .ok (.found p)
  | [] =>
    let product_data :=
      get_matching_product_for_id mws_account.marketplace_id "SellerSKU" [sku]
    (create_using_amazon_data mws_account product_data).map .created

end Product

/-- The envelope shape shared by the three export feeds, as the spec
describes it: the schema-location attribute, the document version constant
`'1.01'`, the merchant id, a message-type tag and the purge-and-replace
flag fixed to the string `'false'`, followed by the feed's messages. The
theorems below compare each export's envelope against this shape. -/
def sharedEnvelope (merchant_id message_type : String) (messages : List Xml) : Xml :=
  Xml.elem "AmazonEnvelope" [(Product.location_attribute, "amznenvelope.xsd")]
    ([Xml.E "Header" [
        Xml.E "DocumentVersion" [.text "1.01"],
        Xml.E "MerchantIdentifier" [.text merchant_id]],
      Xml.E "MessageType" [.text message_type],
      Xml.E "PurgeAndReplace" [.text "false"]] ++ messages)

/-- The catalog-feed `Message` for one product, embedding the identifier
`idf` (the theorems below show the export uses the product's first
identifier here and nothing of the later ones). -/
def productMessage (product : Product) (idf : AmazonIdentifier) : Xml :=
  Xml.E "Message" [
    Xml.E "MessageID" [.text (toString product.id)],
    Xml.E "OperationType" [.text "Update"],
    Xml.E "Product" [
      Xml.E "SKU" [.text product.code],
      Xml.E "StandardProductID" [
        Xml.E "Type" [.text idf.product_id_type],
        Xml.E "Value" [.text idf.product_id]],
      Xml.E "DescriptionData" [
        Xml.E "Title" [.text product.name],
        Xml.E "Description" [.text product.description]],
      Xml.E "ProductData" [
        Xml.E "Miscellaneous" [
          Xml.E "ProductType" [.text "Misc_Other"]]]]]

/-- The price-feed `Message` for one product: its SKU and its list price
tagged with the account's company currency code. -/
def priceMessage (account : MwsAccount) (product : Product) : Xml :=
  Xml.E "Message" [
    Xml.E "MessageID" [.text (toString product.id)],
    Xml.E "OperationType" [.text "Update"],
    Xml.E "Price" [
      Xml.E "SKU" [.text product.code],
      Xml.elem "StandardPrice" [("currency", account.currency_code)]
        [.text product.list_price.digits]]]

/-- The inventory-feed `Message` for one product: its SKU, its integer
storage quantity, and the fixed fulfillment latency `'7'`. -/
def inventoryMessage (product : Product) : Xml :=
  Xml.E "Message" [
    Xml.E "MessageID" [.text (toString product.id)],
    Xml.E "OperationType" [.text "Update"],
    Xml.E "Inventory" [
      Xml.E "SKU" [.text product.code],
      Xml.E "Quantity" [.text (toString product.storage_quantity)],
      Xml.E "FulfillmentLatency" [.text "7"]]]

/-! Concrete fixtures used by the witness and counterexample theorems. -/

/-- A sample MWS account (id 9, merchant `M1`, marketplace `MP1`, currency
`USD`, default uom 3, expense account 4, revenue account 5). -/
def sampleAccount : MwsAccount := ⟨9, "AK", "SK", "M1", "MP1", "USD", 3, 4, 5⟩

/-- A sample product linked to `sampleAccount`, with one ASIN identifier
and nonzero storage quantity. -/
def sampleChair : Product :=
  ⟨1, "CHAIR-1", "Chair", "a chair", ⟨"9.99"⟩, [⟨"B0001", "ASIN"⟩], [9], 4⟩

/-- A second sample product linked to `sampleAccount`, with one EAN
identifier and zero storage quantity. -/
def sampleTable : Product :=
  ⟨2, "TABLE-2", "Table", "a table", ⟨"19.99"⟩, [⟨"B0002", "EAN"⟩], [9], 0⟩

/-- A sample product with a falsy code, an identifier, and no
Account-Link. -/
def sampleLamp : Product :=
  ⟨3, "", "Lamp", "a lamp", ⟨"5"⟩, [⟨"B0003", "UPC"⟩], [], 2⟩

/-- A sample product with a code but no amazon identifiers and no
Account-Link. -/
def sampleStool : Product :=
  ⟨4, "STOOL-4", "Stool", "a stool", ⟨"3.50"⟩, [], [], 1⟩

/-- A product with the same code as `sampleChair` but a different id (and
no identifiers of its own). -/
def sampleChairClone : Product :=
  ⟨5, "CHAIR-1", "Chair clone", "another chair", ⟨"9.99"⟩, [], [], 0⟩

/-- A product with the same code as `sampleStool` and a different id,
also without amazon identifiers. -/
def sampleStoolClone : Product :=
  ⟨6, "STOOL-4", "Stool clone", "another stool", ⟨"3.50"⟩, [], [], 0⟩

/-- A sample marketplace lookup function: every query parses to the same
product data (title `New Product`, id `SKU-N`, a single attribute set, and
ASIN `B0NEW`). -/
def sampleFetch : String → String → List String → AmazonProductData :=
  fun _ _ _ => ⟨"SKU-N", .single ⟨"New Product"⟩, "B0NEW"⟩

/-- The template `create_using_amazon_data` builds from `sampleFetch`'s
data on `sampleAccount`. -/
def sampleCreatedTemplate : CreatedTemplate :=
  ⟨⟨"New Product", ⟨"0.01"⟩, ⟨"0.01"⟩, 3, true, 3, 4, 5⟩,
    "SKU-N", "New Product", [⟨"B0NEW", "ASIN"⟩], [9]⟩

/-! Helper lemmas. -/

/-- A guarded `filterMap` is a `filter` followed by a `map`. -/
theorem filterMap_guard_eq_filter_map {α β : Type} (c : α → Bool) (f : α → β) :
    ∀ l : List α,
      (l.filterMap fun a => if c a then some (f a) else none) = (l.filter c).map f
  | [] => rfl
  | a :: l => by
    by_cases h : c a <;>
      simp [List.filterMap_cons, List.filter_cons, h,
        filterMap_guard_eq_filter_map c f l]

/-- Same, for the two-level guard of the inventory loop (skip when the
first condition holds, keep when the second one also holds). -/
theorem filterMap_guard2_eq_filter_map {α β : Type} (c₁ c₂ : α → Bool) (f : α → β) :
    ∀ l : List α,
      (l.filterMap fun a => if c₁ a then none else if c₂ a then some (f a) else none) =
        (l.filter fun a => !c₁ a && c₂ a).map f
  | [] => rfl
  | a :: l => by
    by_cases h₁ : c₁ a <;> by_cases h₂ : c₂ a <;>
      simp [List.filterMap_cons, List.filter_cons, h₁, h₂,
        filterMap_guard2_eq_filter_map c₁ c₂ f l]

/-- Evaluation of `export_pricing_to_amazon`: exactly one submission, whose
envelope holds a `priceMessage` for exactly the products linked to the
account, and the Account-Link table returned unchanged. -/
theorem export_pricing_eq (account : MwsAccount) (db : List ProductMwsAccountRecord)
    (products : List Product) :
    Product.export_pricing_to_amazon account db products =
      ([{ feed := sharedEnvelope account.merchant_id "Price"
            ((products.filter fun p => p.mws_accounts.contains account.id).map
              (priceMessage account)),
          feed_type := "_POST_PRODUCT_PRICING_DATA_",
          marketplaceids := [account.marketplace_id] }], .ok db) := by
  have h := filterMap_guard_eq_filter_map
    (fun p : Product => p.mws_accounts.contains account.id) (priceMessage account)
    products
  simp only [priceMessage] at h
  simp only [Product.export_pricing_to_amazon, sharedEnvelope]
  rw [h]

/-- Evaluation of `export_inventory_to_amazon`: exactly one submission,
whose envelope holds an `inventoryMessage` for exactly the products with
nonzero storage quantity that are linked to the account, and the
Account-Link table returned unchanged. -/
theorem export_inventory_eq (account : MwsAccount) (db : List ProductMwsAccountRecord)
    (products : List Product) :
    Product.export_inventory_to_amazon account db products =
      ([{ feed := sharedEnvelope account.merchant_id "Inventory"
            ((products.filter fun p =>
                !(p.storage_quantity == 0) && p.mws_accounts.contains account.id).map
              inventoryMessage),
          feed_type := "_POST_INVENTORY_AVAILABILITY_DATA_",
          marketplaceids := [account.marketplace_id] }], .ok db) := by
  have h := filterMap_guard2_eq_filter_map
    (fun p : Product => p.storage_quantity == 0)
    (fun p : Product => p.mws_accounts.contains account.id) inventoryMessage products
  simp only [inventoryMessage] at h
  simp only [Product.export_inventory_to_amazon, sharedEnvelope]
  rw [h]

/-- Evaluation of the export loop on a valid head product: its message is
built from the head (first) identifier only, so it does not depend on the
remaining identifiers. -/
theorem export_messages_cons_ok (p : Product) (idf : AmazonIdentifier)
    (rest : List AmazonIdentifier) (ps : List Product) (h : p.code ≠ "") :
    Product.export_messages ({ p with amazon_identifiers := idf :: rest } :: ps) =
      (Product.export_messages ps).map (fun ms => productMessage p idf :: ms) := by
  cases hE : Product.export_messages ps <;>
    simp [Product.export_messages, h, hE, productMessage, Except.map]

/-- The export loop on a list holding an invalid product fails with the
named error of the first invalid product, carrying that product's
template name. -/
theorem export_messages_error_of_invalid (products : List Product)
    (hinv : ∃ p ∈ products, p.code = "" ∨ p.amazon_identifiers = []) :
    ∃ p ∈ products,
      (p.code = "" ∧
        Product.export_messages products = .error (.missing_product_code p.name)) ∨
      (p.amazon_identifiers = [] ∧
        Product.export_messages products =
          .error (.missing_amazon_product_identifiers p.name)) := by
  induction products with
  | nil => simp at hinv
  | cons q ps ih =>
    by_cases hq : q.code = ""
    · exact ⟨q, by simp, Or.inl ⟨hq, by simp [Product.export_messages, hq]⟩⟩
    · by_cases hqi : q.amazon_identifiers = []
      · exact ⟨q, by simp, Or.inr ⟨hqi, by simp [Product.export_messages, hq, hqi]⟩⟩
      · obtain ⟨p, hp, hcase⟩ := hinv
        rcases List.mem_cons.mp hp with rfl | hp'
        · rcases hcase with h | h
          · exact absurd h hq
          · exact absurd h hqi
        · obtain ⟨idf, rest, hql⟩ : ∃ idf rest, q.amazon_identifiers = idf :: rest := by
            cases hqc : q.amazon_identifiers with
            | nil => exact absurd hqc hqi
            | cons a b => exact ⟨a, b, rfl⟩
          obtain ⟨p', hp2, hres⟩ := ih ⟨p, hp', hcase⟩
          refine ⟨p', List.mem_cons_of_mem _ hp2, ?_⟩
          rcases hres with ⟨hcode, herr⟩ | ⟨hids, herr⟩
          · exact Or.inl ⟨hcode, by
              simp [Product.export_messages, hq, hql, herr]⟩
          · exact Or.inr ⟨hids, by
              simp [Product.export_messages, hq, hql, herr]⟩

/-! The claims. -/

/-- C1: if any product in the catalog export list has an empty product
code or an empty amazon-identifier collection, `export_to_amazon` raises
the corresponding named validation error (`missing_product_code` or
`missing_amazon_product_identifiers`) carrying that product's display
name, with an empty submission trace (no submission call made) and no
resulting Account-Link table (no record created): the whole export aborts
with no partial feed. -/
theorem claim_C1_catalog_export_aborts_on_invalid_product
    (account : MwsAccount) (linkDb : List ProductMwsAccountRecord)
    (products : List Product)
    (hinv : ∃ p ∈ products, p.code = "" ∨ p.amazon_identifiers = []) :
    ∃ p ∈ products,
      (p.code = "" ∧ Product.export_to_amazon account linkDb products =
        ([], .error (.missing_product_code p.name))) ∨
      (p.amazon_identifiers = [] ∧
        Product.export_to_amazon account linkDb products =
          ([], .error (.missing_amazon_product_identifiers p.name))) := by
  obtain ⟨p, hp, hres⟩ := export_messages_error_of_invalid products hinv
  refine ⟨p, hp, ?_⟩
  rcases hres with ⟨hc, he⟩ | ⟨hi, he⟩
  · exact Or.inl ⟨hc, by simp [Product.export_to_amazon, he]⟩
  · exact Or.inr ⟨hi, by simp [Product.export_to_amazon, he]⟩

/-- Witness for C1: exporting the lamp (falsy code) together with the
chair aborts with the missing-code error naming the lamp — no submission,
no Account-Link table. -/
theorem claim_C1_catalog_export_aborts_on_invalid_product_witness :
    ∃ p ∈ [sampleLamp, sampleChair],
      (p.code = "" ∧
        Product.export_to_amazon sampleAccount [] [sampleLamp, sampleChair] =
          ([], .error (.missing_product_code p.name))) ∨
      (p.amazon_identifiers = [] ∧
        Product.export_to_amazon sampleAccount [] [sampleLamp, sampleChair] =
          ([], .error (.missing_amazon_product_identifiers p.name))) :=
  claim_C1_catalog_export_aborts_on_invalid_product sampleAccount []
    [sampleLamp, sampleChair] (by decide)

/-- C2, evaluated at the failing input: with two (product, account) pairs
both already linked, `ProductMwsAccount.create` is not a no-op — the
in-place `remove` makes the loop skip the second pair, which then reaches
the storage insert and violates the `account_product_unique` constraint
instead of being silently dropped (first conjunct). With a single
already-linked pair the silent drop does work (second conjunct). -/
theorem claim_C2_create_with_two_linked_pairs_raises :
    ProductMwsAccount.create [⟨1, 9⟩, ⟨2, 9⟩] [⟨1, 9⟩, ⟨2, 9⟩] =
      .error (.uniqueness_violation "account_product_unique") ∧
    ProductMwsAccount.create [⟨1, 9⟩] [⟨1, 9⟩, ⟨2, 9⟩] = .ok [⟨1, 9⟩, ⟨2, 9⟩] := by
  constructor <;>
    simp [ProductMwsAccount.create, pyRemoveLoop, linkExists, sqlInsertLinks]

/-- C3: the price feed holds a message exactly for the products whose
Account-Links contain the current account — unlinked products are
silently skipped (no entry, no error) — and each included message carries
the product's SKU and its list price tagged with the account's company
currency code (see `priceMessage`); the Account-Link table comes back
unchanged. -/
theorem claim_C3_pricing_feed_covers_exactly_linked_products
    (account : MwsAccount) (linkDb : List ProductMwsAccountRecord)
    (products : List Product) :
    Product.export_pricing_to_amazon account linkDb products =
      ([{ feed := sharedEnvelope account.merchant_id "Price"
            ((products.filter fun p => p.mws_accounts.contains account.id).map
              (priceMessage account)),
          feed_type := "_POST_PRODUCT_PRICING_DATA_",
          marketplaceids := [account.marketplace_id] }], .ok linkDb) :=
  export_pricing_eq account linkDb products

/-- C4: the inventory feed holds a message exactly for the products with
an Account-Link to the current account and a nonzero storage-locations
quantity — zero-quantity and unlinked products are silently skipped with
no error — and every included message carries the fixed fulfillment
latency `'7'` (see `inventoryMessage`). -/
theorem claim_C4_inventory_feed_covers_linked_nonzero_products
    (account : MwsAccount) (linkDb : List ProductMwsAccountRecord)
    (products : List Product) :
    Product.export_inventory_to_amazon account linkDb products =
      ([{ feed := sharedEnvelope account.merchant_id "Inventory"
            ((products.filter fun p =>
                !(p.storage_quantity == 0) && p.mws_accounts.contains account.id).map
              inventoryMessage),
          feed_type := "_POST_INVENTORY_AVAILABILITY_DATA_",
          marketplaceids := [account.marketplace_id] }], .ok linkDb) :=
  export_inventory_eq account linkDb products

/-- C5: for a product with a nonempty code whose identifier list begins
with `idf`, the catalog export loop builds its message from `idf` alone
— the message embeds `idf`'s type and value verbatim (see
`productMessage`) — and the loop's whole result is the same whatever the
identifiers after the first are, so the later identifiers are neither
merged into nor present in the message. -/
theorem claim_C5_catalog_message_embeds_first_identifier_only
    (p : Product) (idf : AmazonIdentifier) (rest rest' : List AmazonIdentifier)
    (ps : List Product) (h : p.code ≠ "") :
    Product.export_messages ({ p with amazon_identifiers := idf :: rest } :: ps) =
      (Product.export_messages ps).map (fun ms => productMessage p idf :: ms) ∧
    Product.export_messages ({ p with amazon_identifiers := idf :: rest } :: ps) =
      Product.export_messages ({ p with amazon_identifiers := idf :: rest' } :: ps) := by
  refine ⟨export_messages_cons_ok p idf rest ps h, ?_⟩
  rw [export_messages_cons_ok p idf rest ps h,
    export_messages_cons_ok p idf rest' ps h]

/-- Witness for C5: the chair with its ASIN identifier alone and with a
second EAN identifier appended gives the same single-message feed, built
from the ASIN identifier. -/
theorem claim_C5_catalog_message_embeds_first_identifier_only_witness :
    Product.export_messages
        [{ sampleChair with amazon_identifiers := [⟨"B0001", "ASIN"⟩] }] =
      (Product.export_messages []).map
        (fun ms => productMessage sampleChair ⟨"B0001", "ASIN"⟩ :: ms) ∧
    Product.export_messages
        [{ sampleChair with amazon_identifiers := [⟨"B0001", "ASIN"⟩] }] =
      Product.export_messages
        [{ sampleChair with
            amazon_identifiers := [⟨"B0001", "ASIN"⟩, ⟨"4006381333931", "EAN"⟩] }] :=
  claim_C5_catalog_message_embeds_first_identifier_only sampleChair ⟨"B0001", "ASIN"⟩
    [] [⟨"4006381333931", "EAN"⟩] [] (by decide)

/-- C6: the pricing and inventory flows return the Account-Link table
unchanged for every input (first conjunct), and the catalog flow does
create a link for every exported product when none is linked yet (second
conjunct, at a concrete input). But the claimed idempotency fails: with
both products already linked, the faulty duplicate filter of
`ProductMwsAccount.create` lets the second pair through to the storage
insert, so after one successful submission the bookkeeping raises the
uniqueness error instead of linking every product (third conjunct). -/
theorem claim_C6_only_catalog_flow_creates_links :
    (∀ (account : MwsAccount) (linkDb : List ProductMwsAccountRecord)
        (products : List Product),
      (Product.export_pricing_to_amazon account linkDb products).2 = .ok linkDb ∧
      (Product.export_inventory_to_amazon account linkDb products).2 = .ok linkDb) ∧
    (Product.export_to_amazon sampleAccount [] [sampleChair, sampleTable]).2 =
      .ok [⟨1, 9⟩, ⟨2, 9⟩] ∧
    ((Product.export_to_amazon sampleAccount [⟨1, 9⟩, ⟨2, 9⟩]
        [sampleChair, sampleTable]).1.length = 1 ∧
      (Product.export_to_amazon sampleAccount [⟨1, 9⟩, ⟨2, 9⟩]
          [sampleChair, sampleTable]).2 =
        .error (.uniqueness_violation "account_product_unique")) := by
  refine ⟨fun account linkDb products =>
    ⟨by rw [export_pricing_eq], by rw [export_inventory_eq]⟩, ?_, ?_, ?_⟩ <;>
    simp [Product.export_to_amazon, Product.export_messages,
      ProductMwsAccount.create, pyRemoveLoop, linkExists, sqlInsertLinks,
      sampleAccount, sampleChair, sampleTable]

/-- C7: resolving a seller SKU: (a) when the product table holds a product
whose code equals the SKU, the first match is returned, the marketplace
lookup is never consulted (the result is the same for every lookup
function) and nothing is created; (b) otherwise a template is created from
the fetched data, with the placeholder `Decimal('0.01')` for both cost and
list price, a single ASIN identifier, and unit-of-measure and
expense/revenue account references taken from the account
configuration. -/
theorem claim_C7_find_or_create_using_amazon_sku_spec
    (account : MwsAccount)
    (fetch : String → String → List String → AmazonProductData)
    (db : List Product) (sku : String) :
    (∀ p rest, db.filter (fun q => q.code == sku) = p :: rest →
      ∀ fetch', Product.find_or_create_using_amazon_sku account fetch' db sku =
        .ok (.found p)) ∧
    (db.filter (fun q => q.code == sku) = [] →
      ∀ t, Product.find_or_create_using_amazon_sku account fetch db sku =
          .ok (.created t) →
        t.values.cost_price = ⟨"0.01"⟩ ∧ t.values.list_price = ⟨"0.01"⟩ ∧
        (∃ asin, t.amazon_identifiers = [⟨asin, "ASIN"⟩]) ∧
        t.values.default_uom = account.default_uom ∧
        t.values.sale_uom = account.default_uom ∧
        t.values.account_expense = account.default_account_expense ∧
        t.values.account_revenue = account.default_account_revenue) := by
  constructor
  · intro p rest hf fetch'
    simp [Product.find_or_create_using_amazon_sku, hf]
  · intro hf t ht
    simp only [Product.find_or_create_using_amazon_sku, hf] at ht
    cases hc : Product.create_using_amazon_data account
        (fetch account.marketplace_id "SellerSKU" [sku]) with
    | error e => rw [hc] at ht; simp [Except.map] at ht
    | ok t' =>
      rw [hc] at ht
      simp only [Except.map, Except.ok.injEq, Product.FindOrCreateResult.created.injEq] at ht
      subst ht
      cases hA : (fetch account.marketplace_id "SellerSKU" [sku]).attribute_sets with
      | single attrs =>
        simp [Product.create_using_amazon_data, hA,
          Product.extract_product_values_from_amazon_data] at hc
        subst hc
        simp
      | listed attrsList =>
        cases attrsList with
        | nil => simp [Product.create_using_amazon_data, hA] at hc
        | cons attrs restA =>
          simp [Product.create_using_amazon_data, hA,
            Product.extract_product_values_from_amazon_data] at hc
          subst hc
          simp

/-- Witness for C7: resolving `CHAIR-1` against a table holding the chair
returns the chair (with `sampleFetch` as the lookup), and resolving a SKU
against an empty table creates `sampleCreatedTemplate`, whose placeholder
prices, ASIN identifier and configuration references are as claimed. -/
theorem claim_C7_find_or_create_using_amazon_sku_spec_witness :
    Product.find_or_create_using_amazon_sku sampleAccount sampleFetch
        [sampleChair] "CHAIR-1" = .ok (.found sampleChair) ∧
    (sampleCreatedTemplate.values.cost_price = ⟨"0.01"⟩ ∧
      sampleCreatedTemplate.values.list_price = ⟨"0.01"⟩ ∧
      (∃ asin, sampleCreatedTemplate.amazon_identifiers = [⟨asin, "ASIN"⟩]) ∧
      sampleCreatedTemplate.values.default_uom = sampleAccount.default_uom ∧
      sampleCreatedTemplate.values.sale_uom = sampleAccount.default_uom ∧
      sampleCreatedTemplate.values.account_expense =
        sampleAccount.default_account_expense ∧
      sampleCreatedTemplate.values.account_revenue =
        sampleAccount.default_account_revenue) :=
  ⟨(claim_C7_find_or_create_using_amazon_sku_spec sampleAccount sampleFetch
      [sampleChair] "CHAIR-1").1 sampleChair [] (by decide) sampleFetch,
   (claim_C7_find_or_create_using_amazon_sku_spec sampleAccount sampleFetch
      [] "NEW-SKU").2 (by decide) sampleCreatedTemplate (by rfl)⟩

/-- C8: every envelope the three exports submit has the shared structure
of `sharedEnvelope`: the schema-location attribute, the document version
constant `'1.01'`, the account's merchant id, the message-type tag
(`'Product'`, `'Price'` or `'Inventory'` respectively) and the
purge-and-replace flag fixed to the string `'false'` — never a
full-replace feed. The catalog flow submits exactly when its message loop
succeeds; the other two always submit exactly once. -/
theorem claim_C8_all_envelopes_share_structure (account : MwsAccount)
    (linkDb : List ProductMwsAccountRecord) (products : List Product) :
    ((Product.export_to_amazon account linkDb products).1.map FeedSubmission.feed =
      match Product.export_messages products with
      | .error _ => []
      | .ok msgs => [sharedEnvelope account.merchant_id "Product" msgs]) ∧
    ((Product.export_pricing_to_amazon account linkDb products).1.map
        FeedSubmission.feed =
      [sharedEnvelope account.merchant_id "Price"
        ((products.filter fun p => p.mws_accounts.contains account.id).map
          (priceMessage account))]) ∧
    ((Product.export_inventory_to_amazon account linkDb products).1.map
        FeedSubmission.feed =
      [sharedEnvelope account.merchant_id "Inventory"
        ((products.filter fun p =>
            !(p.storage_quantity == 0) && p.mws_accounts.contains account.id).map
          inventoryMessage)]) := by
  refine ⟨?_, by rw [export_pricing_eq]; rfl, by rw [export_inventory_eq]; rfl⟩
  cases hE : Product.export_messages products with
  | error e => simp [Product.export_to_amazon, hE]
  | ok msgs =>
    cases hC : ProductMwsAccount.create linkDb
        (products.map fun product =>
          { product := product.id, account := account.id }) with
    | error e => simp [Product.export_to_amazon, hE, hC, sharedEnvelope]
    | ok db2 => simp [Product.export_to_amazon, hE, hC, sharedEnvelope]

/-- C9: a product list in which no product qualifies (pricing: none linked
to the current account; inventory: each one unlinked or with zero storage
quantity) does not short-circuit the export: the run still submits exactly
one feed, whose envelope holds zero `Message` elements, returns the parsed
response of that submission, and raises no error. -/
theorem claim_C9_all_skipped_export_still_submits (account : MwsAccount)
    (linkDb : List ProductMwsAccountRecord) (products : List Product) :
    ((∀ p ∈ products, ¬ p.mws_accounts.contains account.id) →
      Product.export_pricing_to_amazon account linkDb products =
        ([{ feed := sharedEnvelope account.merchant_id "Price" [],
            feed_type := "_POST_PRODUCT_PRICING_DATA_",
            marketplaceids := [account.marketplace_id] }], .ok linkDb)) ∧
    ((∀ p ∈ products, p.storage_quantity = 0 ∨ ¬ p.mws_accounts.contains account.id) →
      Product.export_inventory_to_amazon account linkDb products =
        ([{ feed := sharedEnvelope account.merchant_id "Inventory" [],
            feed_type := "_POST_INVENTORY_AVAILABILITY_DATA_",
            marketplaceids := [account.marketplace_id] }], .ok linkDb)) := by
  constructor
  · intro h
    rw [export_pricing_eq]
    have hnil : products.filter (fun p => p.mws_accounts.contains account.id) = [] := by
      rw [List.filter_eq_nil_iff]
      intro p hp
      simpa using h p hp
    rw [hnil]
    rfl
  · intro h
    rw [export_inventory_eq]
    have hnil : products.filter
        (fun p => !(p.storage_quantity == 0) && p.mws_accounts.contains account.id) = [] := by
      rw [List.filter_eq_nil_iff]
      intro p hp
      rcases h p hp with hz | hnc
      · simp [hz]
      · simp only [Bool.and_eq_true, not_and]
        exact fun _ => hnc
    rw [hnil]
    rfl

/-- Witness for C9: pricing over the unlinked lamp, and inventory over the
zero-quantity table plus the unlinked lamp, each submit one feed with an
empty message list and raise no error. -/
theorem claim_C9_all_skipped_export_still_submits_witness :
    Product.export_pricing_to_amazon sampleAccount [] [sampleLamp] =
      ([{ feed := sharedEnvelope sampleAccount.merchant_id "Price" [],
          feed_type := "_POST_PRODUCT_PRICING_DATA_",
          marketplaceids := [sampleAccount.marketplace_id] }], .ok []) ∧
    Product.export_inventory_to_amazon sampleAccount [] [sampleTable, sampleLamp] =
      ([{ feed := sharedEnvelope sampleAccount.merchant_id "Inventory" [],
          feed_type := "_POST_INVENTORY_AVAILABILITY_DATA_",
          marketplaceids := [sampleAccount.marketplace_id] }], .ok []) :=
  ⟨(claim_C9_all_skipped_export_still_submits sampleAccount [] [sampleLamp]).1
      (by decide),
   (claim_C9_all_skipped_export_still_submits sampleAccount []
      [sampleTable, sampleLamp]).2 (by decide)⟩

/-- C10: for a product whose amazon-identifier collection is nonempty,
`check_amazon_code` raises `invalid_amazon_product` exactly when some
other row of the product table (different id) has the same code; a
product with no amazon identifiers is never subjected to the check, so it
passes whatever the table holds. -/
theorem claim_C10_check_amazon_code_spec (db : List Product) (self : Product) :
    (self.amazon_identifiers ≠ [] →
      (Product.check_amazon_code db self =
          .error (.invalid_amazon_product self.code) ↔
        ∃ p ∈ db, p.code = self.code ∧ p.id ≠ self.id)) ∧
    (self.amazon_identifiers = [] →
      Product.check_amazon_code db self = .ok ()) := by
  constructor
  · intro hids
    have hne : self.amazon_identifiers.isEmpty = false := by
      cases hi : self.amazon_identifiers with
      | nil => exact absurd hi hids
      | cons a l => rfl
    by_cases hf : (db.filter fun p => p.code == self.code && p.id != self.id) = []
    · have : ∀ p ∈ db, ¬(p.code == self.code && p.id != self.id) = true :=
        List.filter_eq_nil_iff.mp hf
      constructor
      · intro habs
        simp [Product.check_amazon_code, hne, hf] at habs
      · rintro ⟨p, hp, hcode, hid⟩
        exact absurd (by simp [hcode, hid]) (this p hp)
    · have hex : ∃ p ∈ db, (p.code == self.code && p.id != self.id) = true := by
        rcases List.exists_mem_of_ne_nil _ hf with ⟨p, hp⟩
        have := List.mem_filter.mp hp
        exact ⟨p, this.1, this.2⟩
      constructor
      · rintro -
        obtain ⟨p, hp, hcond⟩ := hex
        simp only [Bool.and_eq_true, beq_iff_eq, bne_iff_ne] at hcond
        exact ⟨p, hp, hcond.1, hcond.2⟩
      · intro _
        simp [Product.check_amazon_code, hne, hf]
  · intro hids
    simp [Product.check_amazon_code, hids]

/-- Witness for C10: the chair (which has an identifier) trips the check
against a table holding its same-code clone; the stool (no identifiers)
passes even against a table holding a product with its exact code. -/
theorem claim_C10_check_amazon_code_spec_witness :
    (Product.check_amazon_code [sampleChairClone] sampleChair =
        .error (.invalid_amazon_product sampleChair.code) ↔
      ∃ p ∈ [sampleChairClone], p.code = sampleChair.code ∧ p.id ≠ sampleChair.id) ∧
    Product.check_amazon_code [sampleStoolClone] sampleStool = .ok () :=
  ⟨(claim_C10_check_amazon_code_spec [sampleChairClone] sampleChair).1 (by decide),
   (claim_C10_check_amazon_code_spec [sampleStoolClone] sampleStool).2 (by decide)⟩

end AmazonMws
